import Mathlib

/-!
Shallow embedding of the `users` package of GopherGameServer (session
registry core) and verification of its specification claims.

The Go source keeps a package-level map `users : map[string]*User` and a
counter `userCount : int64`, mutated only by actions run one at a time on a
single-worker `ActionChannel`.  In this sequential embedding every action is
a pure function on an explicit registry state `RegState`; running an action
through the executor is function application (the executor's contract is
exactly that the action runs alone, to completion, against the shared
state).  Go errors are modelled as `Option String` (`none` = nil error,
`some msg` = `errors.New(msg)`).  The `*websocket.Conn` transport handle is
opaque: it is modelled as `Option Nat` (`none` = the nil pointer).

The room collaborator (`rooms` package) is external to this core; it is
modelled as an opaque environment `RoomEnv` of oracles, and every
collaborator call made by `Join` / `Leave` / `LogOut` is recorded in an
event trace so that "the collaborator is not called" and call ordering are
provable statements.
-/

namespace GopherUsers

/-- Go `type User struct` of the users package: `name`, `databaseID int64`,
`isGuest`, `room`, `status int`, `socket *websocket.Conn` (opaque, `none`
standing for the nil pointer). -/
structure User where
  name : String
  databaseID : Int
  isGuest : Bool
  room : String
  status : Nat
  socket : Option Nat
deriving DecidableEq, Repr

/-- Go zero value `User{}`: empty strings, zero numbers, false, nil socket. -/
def User.zero : User :=
  { name := "", databaseID := 0, isGuest := false, room := "", status := 0,
    socket := none }

/-- USER STATUS LIST: `StatusAvailable = iota` (0). -/
def StatusAvailable : Nat := 0

/-- `StatusInGame` (1). -/
def StatusInGame : Nat := 1

/-- `StatusIdle` (2). -/
def StatusIdle : Nat := 2

/-- The registry's shared state: the package-level variables
`users map[string]*User` (as a partial map from names to records) and
`userCount int64`. -/
@[ext]
structure RegState where
  users : String → Option User
  userCount : Int

/-- The empty registry: `make(map[string]*User)` and `userCount = 0`. -/
def RegState.empty : RegState := { users := fun _ => none, userCount := 0 }

/-- Go `int64` wrap-around, applied where the source does `int64`
arithmetic (`userCount++`). -/
def wrap64 (x : Int) : Int := (x + 2 ^ 63) % 2 ^ 64 - 2 ^ 63

/-- Error string of `loginUser`: `"User '<name>' is already logged in"`. -/
def errAlreadyLoggedIn (name : String) : String :=
  "User \x27" ++ name ++ "\x27 is already logged in"

/-- Error string of `getUser` and `changeUserRoomName`:
`"User '<name>' is not logged in"`. -/
def errNotLoggedIn (name : String) : String :=
  "User \x27" ++ name ++ "\x27 is not logged in"

/-- Error string of `Join`: `"User '<n>' is already in room '<r>'"`. -/
def errAlreadyInRoom (name roomName : String) : String :=
  "User \x27" ++ name ++ "\x27 is already in room \x27" ++ roomName ++ "\x27"

/-- Error string of `Leave`: `"User '<name>' is not in a room."`. -/
def errNotInRoom (name : String) : String :=
  "User \x27" ++ name ++ "\x27 is not in a room."

/-- Result shape of the `loginUser` / `getUser` actions: the Go action
returns `[]interface{}{userRef, err}` and the executor threads the shared
registry state. -/
structure UserRes where
  user : User
  err : Option String
  st : RegState

/-- Action `loginUser` (run on the users `ActionChannel`): if the name is
taken, error and no change; otherwise `userCount++`, build
`User{name:..., databaseID:..., isGuest:..., socket:...}` (room and status
left at their Go zero values), insert its pointer, and return the
dereferenced (copied) record. -/
def loginUser (userName : String) (dbID : Int) (isGuest : Bool)
    (socket : Option Nat) (s : RegState) : UserRes :=
  match s.users userName with
  | some _ => { user := User.zero, err := some (errAlreadyLoggedIn userName), st := s }
  | none =>
      let newUser : User :=
        { name := userName, databaseID := dbID, isGuest := isGuest,
          room := "", status := 0, socket := socket }
      { user := newUser, err := none,
        st := { users := fun n => if n = userName then some newUser else s.users n,
                userCount := wrap64 (s.userCount + 1) } }

/-- Public `Login`: boundary validation (non-empty name, `dbID >= -1`,
non-nil socket), forcing a guest's id to `-1`, then the `loginUser` action
through the executor.  (The source's mangled conditional around the
response error, lines 73-79, can only propagate the action's error, which
is how it is modelled here.) -/
def Login (userName : String) (dbID : Int) (isGuest : Bool)
    (socket : Option Nat) (s : RegState) : UserRes :=
  if userName.length = 0 then
    { user := User.zero, err := some "users.Login() requires a user name", st := s }
  else if dbID < -1 then
    { user := User.zero,
      err := some "users.Login() requires a database ID (or -1 for no ID)", st := s }
  else if socket = none then
    { user := User.zero, err := some "users.Login() requires a socket", st := s }
  else
    let databaseID := if isGuest then -1 else dbID
    loginUser userName databaseID isGuest socket s

/-- Action `getUser`: look the name up; on a hit return the dereferenced
(copied) record, otherwise a not-logged-in error.  The registry is not
written. -/
def getUser (userName : String) (s : RegState) : UserRes :=
  match s.users userName with
  | some u => { user := u, err := none, st := s }
  | none => { user := User.zero, err := some (errNotLoggedIn userName), st := s }

/-- Public `Get`: boundary validation of the name, then the `getUser`
action through the executor. -/
def Get (userName : String) (s : RegState) : UserRes :=
  if userName.length = 0 then
    { user := User.zero, err := some "users.Get() requires a user name", st := s }
  else getUser userName s

/-- Result shape of the `changeUserRoomName` action: the action's error
slot, the registry state, and the caller-held `User` value that the action
writes through the passed pointer. -/
structure ChangeRes where
  err : Option String
  st : RegState
  user : User

/-- Action `changeUserRoomName`: if the passed user's name has a live
entry, write `roomName` into the registry record's `room` field AND into
the caller's record through the pointer; otherwise error, touching
neither. -/
def changeUserRoomName (theUser : User) (roomName : String) (s : RegState) :
    ChangeRes :=
  match s.users theUser.name with
  | some rec0 =>
      { err := none,
        st := { s with users := fun n =>
                  if n = theUser.name then some { rec0 with room := roomName }
                  else s.users n },
        user := { theUser with room := roomName } }
  | none => { err := some (errNotLoggedIn theUser.name), st := s, user := theUser }

/-- Action `logUserOut`: `delete(users, userName)`; returns no error slot at
all. -/
def logUserOut (userName : String) (s : RegState) : RegState :=
  { s with users := fun n => if n = userName then none else s.users n }

/-- One observable call made by the orchestration layer: calls into the
external room collaborator (`rooms.Get`, `Room.AddUser`, `Room.RemoveUser`)
and registry room-change actions submitted to the executor. -/
inductive Event where
  | roomGet (roomName : String)
  | addUser (roomName userName : String)
  | removeUser (roomName userName : String)
  | changeRoom (userName roomName : String)
deriving DecidableEq, Repr

/-- Modelled from the spec: the room collaborator boundary (`rooms.Get`,
`Room.AddUser`, `Room.RemoveUser`), whose code is outside this core.  The
spec only fixes the shapes: lookup by name with `NotFound` semantics, and
`AddUser` / `RemoveUser` returning an opaque error or nil.  A room is
identified by its name (`Room.Name()`); each oracle returns `none` for
success or `some msg` for the collaborator's error. -/
structure RoomEnv where
  getErr : String → Option String
  addUserErr : String → String → Option Nat → Option String
  removeUserErr : String → String → Option String

/-- Result shape of the orchestration methods `Join` / `Leave`: the Go
error result, the registry state, the caller-held `User` value (mutated in
place through the method's pointer receiver), and the trace of calls
made. -/
structure OrchRes where
  err : Option String
  st : RegState
  user : User
  trace : List Event

/-- Method `(u *User) Leave()`: if `u` has a room, resolve it
(`rooms.Get`), propagate a lookup error; call `RemoveUser`, propagate its
error; then clear the room name through the `changeUserRoomName` action and
propagate its error.  With no current room, fail immediately. -/
def Leave (env : RoomEnv) (u : User) (s : RegState) : OrchRes :=
  if u.room ≠ "" then
    match env.getErr u.room with
    | some e => { err := some e, st := s, user := u, trace := [.roomGet u.room] }
    | none =>
        match env.removeUserErr u.room u.name with
        | some e =>
            { err := some e, st := s, user := u,
              trace := [.roomGet u.room, .removeUser u.room u.name] }
        | none =>
            let c := changeUserRoomName u "" s
            { err := c.err, st := c.st, user := c.user,
              trace := [.roomGet u.room, .removeUser u.room u.name,
                        .changeRoom u.name ""] }
  else
    { err := some (errNotInRoom u.name), st := s, user := u, trace := [] }

/-- Method `(u *User) Join(r Room)` with the target room given by its name
`rName = r.Name()`: fail if already in that room; otherwise best-effort
`Leave` of any current room (result discarded); then the
`changeUserRoomName` action (propagating its error); then the
collaborator's `AddUser(&u.name, u.socket)`, whose error is returned. -/
def Join (env : RoomEnv) (u : User) (rName : String) (s : RegState) :
    OrchRes :=
  if u.room = rName then
    { err := some (errAlreadyInRoom u.name rName), st := s, user := u, trace := [] }
  else
    let step1 : RegState × User × List Event :=
      if u.room ≠ "" then
        let l := Leave env u s
        (l.st, l.user, l.trace)
      else (s, u, [])
    let c := changeUserRoomName step1.2.1 rName step1.1
    match c.err with
    | some e =>
        { err := some e, st := c.st, user := c.user,
          trace := step1.2.2 ++ [.changeRoom step1.2.1.name rName] }
    | none =>
        { err := env.addUserErr rName c.user.name c.user.socket,
          st := c.st, user := c.user,
          trace := step1.2.2 ++ [.changeRoom step1.2.1.name rName,
                                 .addUser rName c.user.name] }

/-- Result shape of `LogOut`: the Go method returns nothing, so there is no
error slot — only the registry state and the trace of calls made. -/
structure OutRes where
  st : RegState
  trace : List Event

/-- Method `(u *User) LogOut()`: if `u` has a room, try to resolve it and
call `RemoveUser`, ignoring every error; then always run the `logUserOut`
action. -/
def LogOut (env : RoomEnv) (u : User) (s : RegState) : OutRes :=
  let tr : List Event :=
    if u.room ≠ "" then
      match env.getErr u.room with
      | some _ => [.roomGet u.room]
      | none => [.roomGet u.room, .removeUser u.room u.name]
    else []
  { st := logUserOut u.name s, trace := tr }

/-- Result shape of `Kick`: error, registry state, trace. -/
structure KickRes where
  err : Option String
  st : RegState
  trace : List Event

/-- `Kick(userName)`: reject an empty name with `Kick`'s own error string;
then `Get` the user (propagating `Get`'s error) and `LogOut` the returned
session copy. -/
def Kick (env : RoomEnv) (userName : String) (s : RegState) : KickRes :=
  if userName.length = 0 then
    { err := some "users.Kick() requires a user name", st := s, trace := [] }
  else
    let g := Get userName s
    match g.err with
    | some e => { err := some e, st := g.st, trace := [] }
    | none =>
        let o := LogOut env g.user g.st
        { err := none, st := o.st, trace := o.trace }

/-- The spec's description of `Kick`, for the refinement comparison of C3:
"Equivalent to `Get` followed by `Logout`; fails with whatever `Get` would
fail with if the name is not logged in; otherwise always succeeds and
removes the session."  Taken verbatim from the spec's words: run `Get`,
return its error on failure, otherwise log the returned session out. -/
def KickFromSpec (env : RoomEnv) (userName : String) (s : RegState) :
    KickRes :=
  let g := Get userName s
  match g.err with
  | some e => { err := some e, st := g.st, trace := [] }
  | none =>
      let o := LogOut env g.user g.st
      { err := none, st := o.st, trace := o.trace }

/-- The Go map's key discipline: `loginUser` only ever inserts a record
under its own `name`, so in every reachable registry state a stored record's
`name` field equals its key. -/
def RegState.WF (s : RegState) : Prop :=
  ∀ k u0, s.users k = some u0 → u0.name = k

/-- A collaborator environment in which every call succeeds. -/
def envW : RoomEnv :=
  { getErr := fun _ => none, addUserErr := fun _ _ _ => none,
    removeUserErr := fun _ _ => none }

/-- A collaborator environment whose `AddUser` always fails. -/
def envFailAdd : RoomEnv :=
  { getErr := fun _ => none, addUserErr := fun _ _ _ => some "add failed",
    removeUserErr := fun _ _ => none }

/-- A collaborator environment whose room lookup always fails. -/
def envFailGet : RoomEnv :=
  { getErr := fun _ => some "room not found", addUserErr := fun _ _ _ => none,
    removeUserErr := fun _ _ => none }

/-- Concrete session for witnesses: a logged-in guest in no room. -/
def uAlice : User :=
  { name := "alice", databaseID := -1, isGuest := true, room := "",
    status := 0, socket := some 1 }

/-- Concrete session for witnesses: `alice` with room `roomX`. -/
def uAliceX : User := { uAlice with room := "roomX" }

/-- Concrete registry holding only `uAlice`. -/
def sAlice : RegState :=
  { users := fun n => if n = "alice" then some uAlice else none,
    userCount := 1 }

/-- Concrete registry holding only `uAliceX` (alice in `roomX`). -/
def sAliceX : RegState :=
  { users := fun n => if n = "alice" then some uAliceX else none,
    userCount := 1 }

/-! Helper lemmas. -/

theorem changeUserRoomName_user_fields (u : User) (r : String) (s : RegState) :
    (changeUserRoomName u r s).user.name = u.name ∧
    (changeUserRoomName u r s).user.socket = u.socket := by
  unfold changeUserRoomName
  cases h : s.users u.name <;> simp [h]

theorem changeUserRoomName_isSome (u : User) (r : String) (s : RegState)
    (n : String) :
    ((changeUserRoomName u r s).st.users n).isSome = (s.users n).isSome := by
  unfold changeUserRoomName
  cases h : s.users u.name with
  | none => simp [h]
  | some rec0 =>
      by_cases hn : n = u.name
      · subst hn; simp [h]
      · simp [h, hn]

theorem Leave_user_fields (env : RoomEnv) (u : User) (s : RegState) :
    (Leave env u s).user.name = u.name ∧
    (Leave env u s).user.socket = u.socket := by
  unfold Leave
  by_cases hr : u.room = ""
  · simp [hr]
  · cases hg : env.getErr u.room with
    | some e => simp [hr, hg]
    | none =>
        cases hrem : env.removeUserErr u.room u.name with
        | some e => simp [hr, hg, hrem]
        | none => simpa [hr, hg, hrem] using changeUserRoomName_user_fields u "" s

theorem Leave_isSome (env : RoomEnv) (u : User) (s : RegState) (n : String) :
    ((Leave env u s).st.users n).isSome = (s.users n).isSome := by
  unfold Leave
  by_cases hr : u.room = ""
  · simp [hr]
  · cases hg : env.getErr u.room with
    | some e => simp [hr, hg]
    | none =>
        cases hrem : env.removeUserErr u.room u.name with
        | some e => simp [hr, hg, hrem]
        | none => simpa [hr, hg, hrem] using changeUserRoomName_isSome u "" s n

theorem loginUser_preserves_WF (userName : String) (dbID : Int)
    (isGuest : Bool) (socket : Option Nat) (s : RegState) (hs : s.WF) :
    (loginUser userName dbID isGuest socket s).st.WF := by
  unfold loginUser
  cases h : s.users userName with
  | some u0 => simpa [h] using hs
  | none =>
      intro k v hk
      simp only [h] at hk
      by_cases hkn : k = userName
      · subst hkn; simp at hk; simp [← hk]
      · simp [hkn] at hk; exact hs k v hk

theorem logUserOut_preserves_WF (userName : String) (s : RegState)
    (hs : s.WF) : (logUserOut userName s).WF := by
  intro k v hk
  unfold logUserOut at hk
  by_cases hkn : k = userName
  · simp [hkn] at hk
  · simp [hkn] at hk; exact hs k v hk

theorem changeUserRoomName_preserves_WF (u : User) (r : String)
    (s : RegState) (hs : s.WF) : (changeUserRoomName u r s).st.WF := by
  unfold changeUserRoomName
  cases h : s.users u.name with
  | none => simpa [h] using hs
  | some rec0 =>
      intro k v hk
      simp only [h] at hk
      by_cases hkn : k = u.name
      · subst hkn; simp at hk
        have h2 := hs u.name rec0 h
        simp [← hk, h2]
      · simp [hkn] at hk; exact hs k v hk

/-! Claim theorems. -/

/-- C1: for every registry state and every login request run inside the
executor (`loginUser`): if the name already has a live entry the action
fails with the already-logged-in error and returns the state unchanged
(map and counter included); otherwise it reports no error, increments the
session counter (Go `int64` increment), inserts under the name a fresh
record with `room = ""` and `status = StatusAvailable` (and the given
identity fields), returns a snapshot copy of exactly that record, and
touches no other entry. -/
theorem loginUser_rejects_or_inserts (userName : String) (dbID : Int)
    (isGuest : Bool) (socket : Option Nat) (s : RegState) :
    (∀ u0, s.users userName = some u0 →
       loginUser userName dbID isGuest socket s =
         { user := User.zero, err := some (errAlreadyLoggedIn userName),
           st := s }) ∧
    (s.users userName = none →
       (loginUser userName dbID isGuest socket s).err = none ∧
       (loginUser userName dbID isGuest socket s).st.userCount =
         wrap64 (s.userCount + 1) ∧
       (loginUser userName dbID isGuest socket s).st.users userName =
         some (loginUser userName dbID isGuest socket s).user ∧
       (loginUser userName dbID isGuest socket s).user =
         { name := userName, databaseID := dbID, isGuest := isGuest,
           room := "", status := StatusAvailable, socket := socket } ∧
       (∀ m, m ≠ userName →
          (loginUser userName dbID isGuest socket s).st.users m =
            s.users m)) := by
  constructor
  · intro u0 h
    simp [loginUser, h]
  · intro h
    refine ⟨by simp [loginUser, h], by simp [loginUser, h], ?_, ?_, ?_⟩
    · simp [loginUser, h]
    · simp [loginUser, h, StatusAvailable]
    · intro m hm
      simp [loginUser, h, hm]

/-- Witness for C1: in `sAlice` a second login as `alice` fails with the
already-logged-in error and changes nothing; in the empty registry a login
as `alice` succeeds. -/
theorem loginUser_rejects_or_inserts_witness :
    sAlice.users "alice" = some uAlice ∧
    RegState.empty.users "alice" = none ∧
    loginUser "alice" 9 false (some 2) sAlice =
      { user := User.zero, err := some (errAlreadyLoggedIn "alice"),
        st := sAlice } ∧
    (loginUser "alice" (-1) true (some 1) RegState.empty).err = none :=
  ⟨by decide, by decide,
   (loginUser_rejects_or_inserts "alice" 9 false (some 2) sAlice).1 uAlice
     (by decide),
   ((loginUser_rejects_or_inserts "alice" (-1) true (some 1)
       RegState.empty).2 (by decide)).1⟩

/-- C2: the registry action `getUser` fails with the not-logged-in error
exactly when the registry has no entry for the name; on a hit it returns a
snapshot copy of the stored record; the registry state is returned
unchanged in both cases; and `getUser` right after `logUserOut` of the same
name fails with the not-logged-in error. -/
theorem getUser_snapshot_spec (userName : String) (s : RegState) :
    ((getUser userName s).err = some (errNotLoggedIn userName) ↔
       s.users userName = none) ∧
    (∀ u0, s.users userName = some u0 →
       getUser userName s = { user := u0, err := none, st := s }) ∧
    (getUser userName s).st = s ∧
    (getUser userName (logUserOut userName s)).err =
      some (errNotLoggedIn userName) := by
  refine ⟨?_, ?_, ?_, ?_⟩
  · cases h : s.users userName <;> simp [getUser, h]
  · intro u0 h
    simp [getUser, h]
  · cases h : s.users userName <;> simp [getUser, h]
  · simp [getUser, logUserOut]

/-- Witness for C2: `getUser` on `alice` in `sAlice` returns the stored
record with no error, and after logging `alice` out it fails with the
not-logged-in error. -/
theorem getUser_snapshot_spec_witness :
    sAlice.users "alice" = some uAlice ∧
    getUser "alice" sAlice = { user := uAlice, err := none, st := sAlice } ∧
    (getUser "alice" (logUserOut "alice" sAlice)).err =
      some (errNotLoggedIn "alice") :=
  ⟨by decide, (getUser_snapshot_spec "alice" sAlice).2.1 uAlice (by decide),
   (getUser_snapshot_spec "alice" sAlice).2.2.2⟩

/-- C8: the registry action `logUserOut` removes the entry for the name
(if present), touches no other entry and not the counter, and running it
twice in a row equals running it once.  (The Go action returns an empty
result slice, so it has no error to produce on a missing entry; here that
is visible in its result type, which is just the new state.) -/
theorem logUserOut_removes_and_idempotent (userName : String)
    (s : RegState) :
    (logUserOut userName s).users userName = none ∧
    (∀ m, m ≠ userName → (logUserOut userName s).users m = s.users m) ∧
    (logUserOut userName s).userCount = s.userCount ∧
    logUserOut userName (logUserOut userName s) = logUserOut userName s := by
  refine ⟨by simp [logUserOut], fun m hm => by simp [logUserOut, hm], rfl, ?_⟩
  unfold logUserOut
  congr 1
  funext n
  by_cases hn : n = userName <;> simp [hn]

/-- Witness for C8: logging `alice` out of `sAlice` leaves `bob`'s (empty)
entry alone. -/
theorem logUserOut_removes_and_idempotent_witness :
    ¬("bob" = "alice") ∧
    (logUserOut "alice" sAlice).users "bob" = sAlice.users "bob" :=
  ⟨by decide,
   (logUserOut_removes_and_idempotent "alice" sAlice).2.1 "bob" (by decide)⟩

/-- C9: whenever a `Login` call with `isGuest = true` succeeds (returns a
nil error), both the session returned to the caller and the record stored
in the registry under the name have `databaseID = -1`, whatever `dbID` the
caller supplied. -/
theorem login_guest_forces_database_id (userName : String) (dbID : Int)
    (socket : Option Nat) (s : RegState)
    (h : (Login userName dbID true socket s).err = none) :
    (Login userName dbID true socket s).user.databaseID = -1 ∧
    (Login userName dbID true socket s).st.users userName =
      some (Login userName dbID true socket s).user := by
  by_cases h1 : userName.length = 0
  · simp [Login, h1] at h
  · by_cases h2 : dbID < -1
    · simp [Login, h1, h2] at h
    · by_cases h3 : socket = none
      · simp [Login, h1, h2, h3] at h
      · simp only [Login, h1, h2, h3, if_false, if_true] at h ⊢
        cases hu : s.users userName with
        | some u0 => simp [loginUser, hu] at h
        | none => simp [loginUser, hu]

/-- Witness for C9: `Login("alice", 7, true, T)` on the empty registry
succeeds and both the returned and the stored record carry
`databaseID = -1`, not 7. -/
theorem login_guest_forces_database_id_witness :
    (Login "alice" 7 true (some 1) RegState.empty).err = none ∧
    ((Login "alice" 7 true (some 1) RegState.empty).user.databaseID = -1 ∧
     (Login "alice" 7 true (some 1) RegState.empty).st.users "alice" =
       some (Login "alice" 7 true (some 1) RegState.empty).user) :=
  ⟨by decide,
   login_guest_forces_database_id "alice" 7 (some 1) RegState.empty
     (by decide)⟩

/-- C10: the registry action `changeUserRoomName`, when the passed
session's name has a live entry, writes the new room name both into the
stored record (keeping its other fields) and into the caller's session
value through the passed pointer (modelled as the returned `user` value),
reporting no error; when the name has no live entry it fails and changes
neither the registry nor the caller's value.  Caller-held sessions are thus
mutated in place by the room-change operation, not treated as pure
snapshots. -/
theorem changeUserRoomName_writes_registry_and_caller (u : User)
    (roomName : String) (s : RegState) :
    (∀ rec0, s.users u.name = some rec0 →
       changeUserRoomName u roomName s =
         { err := none,
           st := { s with users := fun n =>
                     if n = u.name then some { rec0 with room := roomName }
                     else s.users n },
           user := { u with room := roomName } }) ∧
    (s.users u.name = none →
       changeUserRoomName u roomName s =
         { err := some (errNotLoggedIn u.name), st := s, user := u }) := by
  constructor
  · intro rec0 h
    simp [changeUserRoomName, h]
  · intro h
    simp [changeUserRoomName, h]

/-- Witness for C10: changing `alice`'s room in `sAlice` updates both the
registry record and the caller's copy; in the empty registry the action
fails and returns both unchanged. -/
theorem changeUserRoomName_writes_registry_and_caller_witness :
    sAlice.users uAlice.name = some uAlice ∧
    changeUserRoomName uAlice "roomX" sAlice =
      { err := none,
        st := { sAlice with users := fun n =>
                  if n = uAlice.name then some { uAlice with room := "roomX" }
                  else sAlice.users n },
        user := { uAlice with room := "roomX" } } ∧
    RegState.empty.users uAlice.name = none ∧
    changeUserRoomName uAlice "roomX" RegState.empty =
      { err := some (errNotLoggedIn uAlice.name), st := RegState.empty,
        user := uAlice } :=
  ⟨by decide,
   (changeUserRoomName_writes_registry_and_caller uAlice "roomX" sAlice).1
     uAlice (by decide),
   by decide,
   (changeUserRoomName_writes_registry_and_caller uAlice "roomX"
     RegState.empty).2 (by decide)⟩

/-- C6: `Join` into the room the session already occupies fails with the
already-in-room error, makes no collaborator call at all (empty trace), and
changes neither the registry nor the caller's session value. -/
theorem join_already_in_room_no_collaborator_call (env : RoomEnv) (u : User)
    (rName : String) (s : RegState) (h : u.room = rName) :
    Join env u rName s =
      { err := some (errAlreadyInRoom u.name rName), st := s, user := u,
        trace := [] } := by
  simp [Join, h]

/-- Witness for C6: `alice`, already in `roomX`, joining `roomX` again. -/
theorem join_already_in_room_no_collaborator_call_witness :
    uAliceX.room = "roomX" ∧
    Join envW uAliceX "roomX" sAliceX =
      { err := some (errAlreadyInRoom "alice" "roomX"), st := sAliceX,
        user := uAliceX, trace := [] } :=
  ⟨by decide,
   join_already_in_room_no_collaborator_call envW uAliceX "roomX" sAliceX
     (by decide)⟩

/-- C5: `Leave` with no current room fails with the not-in-room error
without any collaborator call and without touching anything; with a current
room, a lookup failure or a `RemoveUser` failure is returned as-is with the
session's room field (and the registry) left unchanged; and when `Leave`
returns no error after both collaborator calls succeeded, the caller's
session value and the registry record both have their room field set to the
empty string, the latter through the executor's room-change action (the
`changeRoom` event in the trace). -/
theorem leave_spec (env : RoomEnv) (u : User) (s : RegState) :
    (u.room = "" →
       Leave env u s =
         { err := some (errNotInRoom u.name), st := s, user := u,
           trace := [] }) ∧
    (∀ e, u.room ≠ "" → env.getErr u.room = some e →
       Leave env u s =
         { err := some e, st := s, user := u, trace := [.roomGet u.room] }) ∧
    (∀ e, u.room ≠ "" → env.getErr u.room = none →
       env.removeUserErr u.room u.name = some e →
       Leave env u s =
         { err := some e, st := s, user := u,
           trace := [.roomGet u.room, .removeUser u.room u.name] }) ∧
    (u.room ≠ "" → env.getErr u.room = none →
       env.removeUserErr u.room u.name = none →
       (Leave env u s).err = none →
       (Leave env u s).user = { u with room := "" } ∧
       (∃ rec0, (Leave env u s).st.users u.name = some rec0 ∧
          rec0.room = "") ∧
       (Leave env u s).trace =
         [.roomGet u.room, .removeUser u.room u.name,
          .changeRoom u.name ""]) := by
  refine ⟨?_, ?_, ?_, ?_⟩
  · intro h
    simp [Leave, h]
  · intro e hr hg
    simp [Leave, hr, hg]
  · intro e hr hg hrem
    simp [Leave, hr, hg, hrem]
  · intro hr hg hrem herr
    simp only [Leave, hr, hg, hrem, if_neg, ne_eq, not_false_iff, if_true] at herr ⊢
    cases hu : s.users u.name with
    | none => simp [changeUserRoomName, hu] at herr
    | some rec0 =>
        refine ⟨by simp [changeUserRoomName, hu], ?_, by simp [changeUserRoomName, hu]⟩
        exact ⟨{ rec0 with room := "" }, by simp [changeUserRoomName, hu], rfl⟩

/-- Witness for C5: `alice` in `roomX` leaves successfully under the
all-success collaborator (room cleared in both copies, trace shows the
collaborator calls and the executor room-change); with no room she fails
with the not-in-room error; under a failing lookup the lookup error is
returned unchanged. -/
theorem leave_spec_witness :
    ((Leave envW uAliceX sAliceX).err = none ∧
     (Leave envW uAliceX sAliceX).user = { uAliceX with room := "" } ∧
     (∃ rec0, (Leave envW uAliceX sAliceX).st.users uAliceX.name =
        some rec0 ∧ rec0.room = "") ∧
     (Leave envW uAliceX sAliceX).trace =
       [.roomGet uAliceX.room, .removeUser uAliceX.room uAliceX.name,
        .changeRoom uAliceX.name ""]) ∧
    Leave envW uAlice sAlice =
      { err := some (errNotInRoom uAlice.name), st := sAlice, user := uAlice,
        trace := [] } ∧
    Leave envFailGet uAliceX sAliceX =
      { err := some "room not found", st := sAliceX, user := uAliceX,
        trace := [.roomGet uAliceX.room] } :=
  ⟨⟨by decide,
    (leave_spec envW uAliceX sAliceX).2.2.2 (by decide) (by decide)
      (by decide) (by decide)⟩,
   (leave_spec envW uAlice sAlice).1 (by decide),
   (leave_spec envFailGet uAliceX sAliceX).2.1 "room not found" (by decide)
     (by decide)⟩

/-- C7: `LogOut` has no error result at all (its result type `OutRes`
carries only the state and the trace, mirroring the Go method's empty
return), and for every collaborator environment — lookups and `RemoveUser`
failing or not, their errors being ignored — the final registry is exactly
the input registry with the entry for the session's name removed; the trace
records the best-effort room calls that were attempted. -/
theorem logOut_swallows_failures_and_removes_entry (env : RoomEnv)
    (u : User) (s : RegState) :
    (LogOut env u s).st =
      { users := fun n => if n = u.name then none else s.users n,
        userCount := s.userCount } ∧
    (LogOut env u s).st.users u.name = none ∧
    (LogOut env u s).trace =
      (if u.room = "" then []
       else
         match env.getErr u.room with
         | some _ => [Event.roomGet u.room]
         | none => [Event.roomGet u.room, Event.removeUser u.room u.name]) := by
  refine ⟨rfl, by simp [LogOut, logUserOut], ?_⟩
  by_cases hr : u.room = ""
  · simp [LogOut, hr]
  · cases hg : env.getErr u.room <;> simp [LogOut, hr, hg]

/-- C4: for every session with a live registry entry and every target room
whose name differs from the session's recorded room, `Join` writes the new
room name into the session's registry record (and the caller's copy)
through the room-change action, and only then calls the collaborator's
`AddUser` — the trace ends with the `changeRoom` event followed by the
`addUser` event — and returns exactly the collaborator's `AddUser` result.
In particular, when `AddUser` fails, `Join` returns the collaborator's
error while the registry room field remains set to the new room's name:
there is no rollback. -/
theorem join_sets_registry_room_before_addUser (env : RoomEnv) (u : User)
    (rName : String) (s : RegState) (hne : u.room ≠ rName)
    (hlive : (s.users u.name).isSome = true) :
    (∃ rec0, (Join env u rName s).st.users u.name = some rec0 ∧
       rec0.room = rName) ∧
    (Join env u rName s).user.room = rName ∧
    (Join env u rName s).err = env.addUserErr rName u.name u.socket ∧
    (∃ pre, (Join env u rName s).trace =
       pre ++ [.changeRoom u.name rName, .addUser rName u.name]) := by
  by_cases hr : u.room = ""
  · obtain ⟨rec0, hrec⟩ := Option.isSome_iff_exists.mp hlive
    have hne2 : ¬("" = rName) := hr ▸ hne
    refine ⟨⟨{ rec0 with room := rName }, ?_, rfl⟩, ?_, ?_, ⟨[], ?_⟩⟩ <;>
      simp [Join, hr, hne2, changeUserRoomName, hrec]
  · have hn : (Leave env u s).user.name = u.name :=
      (Leave_user_fields env u s).1
    have hsck : (Leave env u s).user.socket = u.socket :=
      (Leave_user_fields env u s).2
    have hlv : ((Leave env u s).st.users u.name).isSome = true := by
      rw [Leave_isSome]; exact hlive
    obtain ⟨rec1, hrec1⟩ := Option.isSome_iff_exists.mp hlv
    refine ⟨⟨{ rec1 with room := rName }, ?_, rfl⟩, ?_, ?_,
      ⟨(Leave env u s).trace, ?_⟩⟩ <;>
      simp [Join, hr, hne, changeUserRoomName, hn, hsck, hrec1]

/-- Witness for C4: `alice` (not in a room, live entry in `sAlice`) joins
`roomX` under a collaborator whose `AddUser` always fails: `Join` returns
the collaborator's error, yet the registry record and the caller's copy
show `room = "roomX"`, and the trace ends with the room-change action
followed by the `AddUser` call. -/
theorem join_sets_registry_room_before_addUser_witness :
    uAlice.room ≠ "roomX" ∧
    (sAlice.users uAlice.name).isSome = true ∧
    envFailAdd.addUserErr "roomX" uAlice.name uAlice.socket =
      some "add failed" ∧
    ((∃ rec0, (Join envFailAdd uAlice "roomX" sAlice).st.users uAlice.name =
        some rec0 ∧ rec0.room = "roomX") ∧
     (Join envFailAdd uAlice "roomX" sAlice).user.room = "roomX" ∧
     (Join envFailAdd uAlice "roomX" sAlice).err =
       envFailAdd.addUserErr "roomX" uAlice.name uAlice.socket ∧
     (∃ pre, (Join envFailAdd uAlice "roomX" sAlice).trace =
        pre ++ [.changeRoom uAlice.name "roomX",
                .addUser "roomX" uAlice.name])) :=
  ⟨by decide, by decide, by decide,
   join_sets_registry_room_before_addUser envFailAdd uAlice "roomX" sAlice
     (by decide) (by decide)⟩

/-- C3 counterexample: at the empty name — which is never logged in — the
claim "Kick fails with exactly the error Get would return" is false on the
code: `Kick("")` fails with its own input-validation message while
`Get("")` fails with a different one. -/
theorem kick_empty_name_error_differs_from_get :
    RegState.empty.users "" = none ∧
    (Kick envW "" RegState.empty).err =
      some "users.Kick() requires a user name" ∧
    (Get "" RegState.empty).err = some "users.Get() requires a user name" ∧
    ¬((Kick envW "" RegState.empty).err = (Get "" RegState.empty).err) := by
  decide

/-- C3 amended: for every NON-EMPTY name (the empty name is rejected by
`Kick`'s own boundary check with a different message than `Get`'s), and
every registry state obeying the map's key discipline, `Kick` is exactly
`Get` followed by logging the returned session out (`KickFromSpec`, taken
from the spec's words): when the name is not logged in it fails with
precisely `Get`'s not-logged-in error and leaves the registry unchanged;
when the name is logged in it succeeds and removes the registry entry for
the name, touching no other entry. -/
theorem kick_equals_get_then_logout_for_nonempty_name (env : RoomEnv)
    (userName : String) (s : RegState) (hlen : userName.length ≠ 0)
    (hwf : s.WF) :
    Kick env userName s = KickFromSpec env userName s ∧
    (s.users userName = none →
       Kick env userName s =
         { err := some (errNotLoggedIn userName), st := s, trace := [] }) ∧
    (∀ u0, s.users userName = some u0 →
       (Kick env userName s).err = none ∧
       (Kick env userName s).st.users userName = none ∧
       (∀ m, m ≠ userName →
          (Kick env userName s).st.users m = s.users m)) := by
  refine ⟨by simp [Kick, KickFromSpec, hlen], ?_, ?_⟩
  · intro h
    simp [Kick, hlen, Get, getUser, h]
  · intro u0 h
    have hname : u0.name = userName := hwf userName u0 h
    refine ⟨?_, ?_, ?_⟩
    · simp [Kick, hlen, Get, getUser, h]
    · simp [Kick, hlen, Get, getUser, h, LogOut, logUserOut, hname]
    · intro m hm
      simp [Kick, hlen, Get, getUser, h, LogOut, logUserOut, hname, hm]

/-- Witness for C3 (amended): kicking the logged-in `alice` from `sAlice`
succeeds and removes exactly her entry. -/
theorem kick_equals_get_then_logout_for_nonempty_name_witness :
    "alice".length ≠ 0 ∧
    sAlice.users "alice" = some uAlice ∧
    ((Kick envW "alice" sAlice).err = none ∧
     (Kick envW "alice" sAlice).st.users "alice" = none ∧
     (∀ m, m ≠ "alice" →
        (Kick envW "alice" sAlice).st.users m = sAlice.users m)) :=
  ⟨by decide, by decide,
   (kick_equals_get_then_logout_for_nonempty_name envW "alice" sAlice
     (by decide)
     (by
       intro k v hv
       by_cases hk : k = "alice"
       · subst hk
         simp [sAlice] at hv
         simp [← hv, uAlice]
       · simp [sAlice, hk] at hv)).2.2 uAlice (by decide)⟩

end GopherUsers
